import Mathlib

/-!
Verification development for the asynchronous video-generation job pipeline of
the `vishnu.ai` repository (`supabase/functions/generate-video/index.ts` and the
related unnamed source parts).  The source contains several divergent copies of
the same orchestration logic; the claims cite three of them:

* variant 1 — `generate-video/index.ts` lines 1-359 (simulated provider,
  `generateJobId`, `processVideoJob`);
* variant 3 — `generate-video/index.ts` lines 598-972 (real Replicate provider,
  `generateProviderJobId`, `startProviderGeneration` with a polling loop);
* `unnamed/part_002` — a simulated-provider copy that additionally deletes the
  media asset when the job insert fails.

The embedding below translates those functions into pure Lean definitions.
Nondeterminism of the runtime (random seed/nonce, wall clock, provider
responses, store failures and exceptions raised by awaited calls) is resolved
by explicit environment parameters.  Store rows become Lean structures, and
each background task is modelled as the list of row updates it issues, applied
in order to a pipeline state.
-/

namespace VishnuVideo

/-- Persisted status values of `video_jobs.status` / `media_assets.status`:
the closed enumeration `pending | processing | completed | failed` used by all
variants of the pipeline. -/
inductive JobStatus where
  | pending
  | processing
  | completed
  | failed
deriving DecidableEq, Repr

/-- Ordinal of the state machine `Pending(0) -> Processing(1) -> terminal(2)`;
`completed` and `failed` share the top ordinal. -/
def JobStatus.ordinal : JobStatus → Nat
  | .pending => 0
  | .processing => 1
  | .completed => 2
  | .failed => 2

/-- `completed` and `failed` are the terminal statuses. -/
def JobStatus.isTerminal : JobStatus → Bool
  | .completed => true
  | .failed => true
  | _ => false

/-- A partial update object passed to `supabase.from("video_jobs").update({...})`:
only the listed columns are touched. -/
structure JobUpdate where
  status : Option JobStatus := none
  progress : Option Nat := none
  error_message : Option String := none
  started_at : Option Nat := none
  completed_at : Option Nat := none
deriving DecidableEq, Repr

/-- Provider request payload snapshot built by variant 1 (and `part_002`):
`{ prompt, duration, aspectRatio, seed, timestamp, jobId, cache: false }`. -/
structure ProviderPayloadV1 where
  prompt : String
  duration : String
  aspectRatio : String
  seed : Nat
  timestamp : String
  jobId : String
  cache : Bool
deriving DecidableEq, Repr

/-- Provider request payload snapshot built by variant 3:
`{ prompt, seed, aspect_ratio, duration, cache: false, nonce, created_at }`. -/
structure ProviderPayloadV3 where
  prompt : String
  seed : Nat
  aspect_ratio : String
  duration : String
  cache : Bool
  nonce : String
  created_at : String
deriving DecidableEq, Repr

/-- The concrete JSON objects the pipeline stores into `media_assets.metadata`.
Each constructor mirrors one object literal of the source; an update with a
`metadata` field REPLACES the whole column with the given object. -/
inductive AssetMeta where
  /-- variant 1 creation metadata: `{ duration, aspectRatio, seed, jobId,
  providerPayload, finalPrompt, createdAt }` (index.ts lines 154-162). -/
  | creationV1 (duration aspectRatio : String) (seed : Nat) (jobId : String)
      (providerPayload : ProviderPayloadV1) (finalPrompt createdAt : String)
  /-- variant 1 completion metadata: `{ duration, aspectRatio, seed, jobId,
  prompt, completedAt, note }` (index.ts lines 322-330) — no providerPayload. -/
  | completionV1 (duration aspectRatio : String) (seed : Nat) (jobId : String)
      (prompt completedAt note : String)
  /-- variant 3 creation metadata: `{ job_id, original_user_prompt,
  final_prompt_sent_to_provider, provider_request_payload, seed, duration,
  aspectRatio, created_at }` (index.ts lines 753-762). -/
  | creationV3 (job_id original_user_prompt final_prompt : String)
      (provider_request_payload : ProviderPayloadV3) (seed : Nat)
      (duration aspectRatio created_at : String)
  /-- variant 3 post-dispatch metadata: `{ provider_request_payload,
  provider_prediction_id, provider_job_id }` (index.ts lines 898-904). -/
  | dispatchV3 (provider_request_payload : ProviderPayloadV3)
      (provider_prediction_id provider_job_id : String)
deriving DecidableEq, Repr

/-- The variant-1 `providerPayload` snapshot held by a metadata object, when
present. -/
def AssetMeta.payloadV1 : AssetMeta → Option ProviderPayloadV1
  | .creationV1 _ _ _ _ p _ _ => some p
  | _ => none

/-- The variant-3 `provider_request_payload` snapshot held by a metadata
object, when present. -/
def AssetMeta.payloadV3 : AssetMeta → Option ProviderPayloadV3
  | .creationV3 _ _ _ p _ _ _ _ => some p
  | .dispatchV3 p _ _ => some p
  | _ => none

/-- A partial update object passed to `supabase.from("media_assets").update({...})`. -/
structure AssetUpdate where
  status : Option JobStatus := none
  file_url : Option String := none
  metadata : Option AssetMeta := none
deriving DecidableEq, Repr

/-- One persisted write issued by the orchestrator for a given job: an update
of its `video_jobs` row or of its owning `media_assets` row. -/
inductive Write where
  | jobUpdate (u : JobUpdate)
  | assetUpdate (u : AssetUpdate)
deriving DecidableEq, Repr

/-- The `video_jobs` row of one job (the columns the pipeline touches). -/
structure JobRec where
  status : JobStatus
  progress : Nat
  error_message : Option String
  started_at : Option Nat
  completed_at : Option Nat
deriving DecidableEq, Repr

/-- The `media_assets` row owning one job (the columns the pipeline touches). -/
structure AssetRec where
  status : JobStatus
  file_url : Option String
  metadata : AssetMeta
deriving DecidableEq, Repr

/-- The shared mutable state of one job: its job row and its asset row. -/
structure PipeState where
  job : JobRec
  asset : AssetRec
deriving DecidableEq, Repr

/-- Apply one partial update: listed columns are overwritten, the rest keep
their value (`UPDATE ... SET` on the selected columns only). -/
def applyWrite (s : PipeState) : Write → PipeState
  | .jobUpdate u =>
      { s with job :=
        { status := u.status.getD s.job.status
          progress := u.progress.getD s.job.progress
          error_message := if u.error_message.isSome then u.error_message else s.job.error_message
          started_at := if u.started_at.isSome then u.started_at else s.job.started_at
          completed_at := if u.completed_at.isSome then u.completed_at else s.job.completed_at } }
  | .assetUpdate u =>
      { s with asset :=
        { status := u.status.getD s.asset.status
          file_url := if u.file_url.isSome then u.file_url else s.asset.file_url
          metadata := u.metadata.getD s.asset.metadata } }

/-- Apply a list of writes in order. -/
def applyAll (s : PipeState) (ws : List Write) : PipeState :=
  List.foldl applyWrite s ws

/-- The five demo sample URLs of the simulated variants (index.ts lines
296-302). -/
def sampleVideos : List String :=
  [ "https://storage.googleapis.com/gtv-videos-bucket/sample/ForBiggerBlazes.mp4"
  , "https://storage.googleapis.com/gtv-videos-bucket/sample/ForBiggerEscapes.mp4"
  , "https://storage.googleapis.com/gtv-videos-bucket/sample/ForBiggerFun.mp4"
  , "https://storage.googleapis.com/gtv-videos-bucket/sample/ForBiggerJoyrides.mp4"
  , "https://storage.googleapis.com/gtv-videos-bucket/sample/ForBiggerMeltdowns.mp4" ]

/-- `sampleVideos[seed % sampleVideos.length]` — the demo URL selected by the
seed (index.ts lines 305-306). -/
def sampleVideoUrl (seed : Nat) : String :=
  sampleVideos.getD (seed % sampleVideos.length) ""

/-!
## Variant 1 background task — `processVideoJob` (index.ts lines 240-359)

The task issues a fixed sequence of awaited store writes (the simulated
provider never performs a network call; the sleeps between progress steps are
side-effect free).  Timestamps written by `new Date().toISOString()` are
modelled as `some 0` — the claims only inspect whether a timestamp column was
stamped, never its value.

Exceptions: every awaited store call may reject at runtime (the source's own
`catch` blocks, and the nested `try/catch` around the failure writes in
`part_002`, show the authors treat these calls as able to throw).  The model
resolves this nondeterminism by an optional index `exn` into the body's write
sequence: `some i` (with `i` < number of body writes) means the `i`-th write
throws — earlier writes were applied, write `i` itself is lost, and control
jumps to the `catch` block, which marks the job and the asset failed.
`processVideoJob`'s inputs `prompt`, `duration`, `aspectRatio`, `seed`,
`providerJobId` are parameters.
-/

/-- Inputs of one `processVideoJob` run (variant 1). -/
structure ArgsV1 where
  prompt : String
  duration : String
  aspectRatio : String
  seed : Nat
  providerJobId : String
deriving DecidableEq, Repr

/-- The write sequence of variant 1's `processVideoJob` body (no exception):
processing updates, the four simulated progress steps, then the completion
writes with the seed-selected sample URL and the replaced asset metadata. -/
def bodyV1 (a : ArgsV1) : List Write :=
  [ .jobUpdate { status := some .processing, progress := some 10, started_at := some 0 }
  , .assetUpdate { status := some .processing }
  , .jobUpdate { progress := some 20 }
  , .jobUpdate { progress := some 40 }
  , .jobUpdate { progress := some 60 }
  , .jobUpdate { progress := some 80 }
  , .jobUpdate { status := some .completed, progress := some 100, completed_at := some 0 }
  , .assetUpdate { status := some .completed
                 , file_url := some (sampleVideoUrl a.seed)
                 , metadata := some (.completionV1 a.duration a.aspectRatio a.seed
                     a.providerJobId a.prompt "0" "Demo video - integrate real API for production") } ]

/-- Variant 1's `catch` block (index.ts lines 339-358): unconditionally mark
the job failed with the exception's message and mark the asset failed. -/
def catchV1 (msg : String) : List Write :=
  [ .jobUpdate { status := some .failed, error_message := some msg }
  , .assetUpdate { status := some .failed } ]

/-- Message carried by a rejected store call in the model (the source maps a
non-`Error` rejection to `"Unknown error"`). -/
def storeExnMsg : String := "Unknown error"

/-- The full write trace of one `processVideoJob` run: the body, truncated at
the throwing write when `exn = some i` with `i` a valid body index, followed in
that case by the `catch` block's writes. -/
def traceV1 (a : ArgsV1) (exn : Option Nat) : List Write :=
  match exn with
  | none => bodyV1 a
  | some i =>
      if i < (bodyV1 a).length then (bodyV1 a).take i ++ catchV1 storeExnMsg
      else bodyV1 a

/-!
## Variant 3 background task — `startProviderGeneration` (index.ts lines 817-972)

The task marks the job processing, calls the provider's `create` (which may
throw — the source wraps it in a local `try/catch`), stores the prediction id
in the asset metadata, then polls `predictions.get` every 3 seconds under a
hard 10-minute wall-clock ceiling.  Provider nondeterminism is an environment:
the dispatch outcome, the status returned (or exception thrown) by each poll,
and the extra wall-clock milliseconds each iteration consumes beyond the fixed
3000 ms sleep.  Store writes may throw exactly as in variant 1; `exnAt` is the
index (in execution order) of the store write that throws, if any.  The two
writes of the outer `catch` (lines 960-971) are wrapped in their own
`try/catch` in the source and are modelled as always applying.
-/

/-- Normalized provider poll status: the source tests `p.status` for
`"succeeded"` and for `"failed" | "canceled"`; every other status (queued,
starting, processing, ...) continues the loop. -/
inductive PStatus where
  | succeeded (output : String)
  | failed (error : Option String)
  | canceled (error : Option String)
  | other
deriving DecidableEq, Repr

/-- Environment resolving the nondeterminism of one `startProviderGeneration`
run. -/
structure Env3 where
  /-- `provider_request_payload` built at creation and closed over by the task. -/
  payload : ProviderPayloadV3
  /-- the generated `providerJobId` closed over by the task. -/
  providerJobId : String
  /-- outcome of `replicate.predictions.create`: thrown message or prediction id. -/
  dispatch : Except String String
  /-- outcome of the `i`-th `replicate.predictions.get`: thrown message or status. -/
  poll : Nat → Except String PStatus
  /-- extra wall-clock ms consumed by iteration `i` beyond the 3000 ms sleep. -/
  extra : Nat → Nat
  /-- index of the store write that throws, if any. -/
  exnAt : Option Nat

/-- Result of (part of) a variant-3 run: applied writes, a pending exception
escaping to the outer catch, whether the model's fuel ran out (never reachable
from the entry point, see `loopV3_fuel_sufficient`), the number of provider
polls performed, and whether a store write threw immediately after the job's
`completed` write (the only way a terminal `completed` can later be
overwritten by the catch block). -/
structure RunPart where
  writes : List Write
  pendingExn : Option String
  fuelOut : Bool
  polls : Nat
  crashAfterComplete : Bool
deriving DecidableEq, Repr

/-- Hard wall-clock ceiling of the polling loop: `10 * 60 * 1000` ms
(index.ts line 909). -/
def timeoutMs : Nat := 10 * 60 * 1000

/-- The synthetic progress estimate written while polling:
`10 + Math.min(80, Math.floor(elapsed / 3000) * 5)` (index.ts line 947). -/
def syntheticProgress (elapsed : Nat) : Nat :=
  10 + min 80 (elapsed / 3000 * 5)

/-- `video_jobs` update entering processing (index.ts line 850). -/
def jobProcessingW3 : Write :=
  .jobUpdate { status := some .processing, progress := some 5, started_at := some 0 }

/-- `media_assets` update entering processing. -/
def assetProcessingW : Write := .assetUpdate { status := some .processing }

/-- `video_jobs` completion update: status completed, progress 100,
`completed_at` stamped. -/
def jobCompletedW : Write :=
  .jobUpdate { status := some .completed, progress := some 100, completed_at := some 0 }

/-- `media_assets` completion update with the provider's output URL. -/
def assetCompletedW (url : String) : Write :=
  .assetUpdate { status := some .completed, file_url := some url }

/-- `video_jobs` failure update with an error message. -/
def jobFailedW (msg : String) : Write :=
  .jobUpdate { status := some .failed, error_message := some msg }

/-- `media_assets` failure update. -/
def assetFailedW : Write := .assetUpdate { status := some .failed }

/-- Synthetic progress update of one polling iteration. -/
def progressW (elapsed : Nat) : Write :=
  .jobUpdate { progress := some (syntheticProgress elapsed) }

/-- Metadata overwrite storing the provider prediction id after dispatch
(index.ts lines 896-905); it rebuilds the metadata object around the same
`provider_request_payload`. -/
def assetMetaW (env : Env3) (predictionId : String) : Write :=
  .assetUpdate { metadata := some (.dispatchV3 env.payload predictionId env.providerJobId) }

/-- Attempt two consecutive store writes at counters `c` and `c+1`; a write
whose counter equals `exnAt` throws (it is lost and the exception escapes).
`flagOnSecond` marks `crashAfterComplete` when the second write throws. -/
def pairWrites (exnAt : Option Nat) (c : Nat) (w1 w2 : Write) (flagOnSecond : Bool) :
    List Write × Option String × Bool :=
  if exnAt = some c then ([], some storeExnMsg, false)
  else if exnAt = some (c + 1) then ([w1], some storeExnMsg, flagOnSecond)
  else ([w1, w2], none, false)

/-- The timeout epilogue of the loop (index.ts lines 953-957): mark the job
failed with the message `"Provider timed out"` and mark the asset failed. -/
def timeoutPart (exnAt : Option Nat) (c : Nat) : RunPart :=
  let p := pairWrites exnAt c (jobFailedW "Provider timed out") assetFailedW false
  ⟨p.1, p.2.1, false, 0, p.2.2⟩

/-- The polling loop of `startProviderGeneration` (index.ts lines 911-951),
with explicit fuel (the entry point uses fuel 201, which
`loopV3_fuel_sufficient` proves is never exhausted).  Arguments: fuel,
iteration index `i`, elapsed wall-clock ms, store-write counter `c`. -/
def loopV3 (env : Env3) : Nat → Nat → Nat → Nat → RunPart
  | 0, _, elapsed, c =>
      if elapsed < timeoutMs then ⟨[], none, true, 0, false⟩
      else timeoutPart env.exnAt c
  | fuel + 1, i, elapsed, c =>
      if elapsed < timeoutMs then
        match env.poll i with
        | .error e => ⟨[], some e, false, 1, false⟩
        | .ok (.succeeded url) =>
            let p := pairWrites env.exnAt c jobCompletedW (assetCompletedW url) true
            ⟨p.1, p.2.1, false, 1, p.2.2⟩
        | .ok (.failed err) =>
            let p := pairWrites env.exnAt c (jobFailedW (err.getD "Provider failed")) assetFailedW false
            ⟨p.1, p.2.1, false, 1, p.2.2⟩
        | .ok (.canceled err) =>
            let p := pairWrites env.exnAt c (jobFailedW (err.getD "Provider canceled")) assetFailedW false
            ⟨p.1, p.2.1, false, 1, p.2.2⟩
        | .ok .other =>
            if env.exnAt = some c then ⟨[], some storeExnMsg, false, 1, false⟩
            else
              let r := loopV3 env fuel (i + 1) (elapsed + 3000 + env.extra i) (c + 1)
              ⟨progressW elapsed :: r.writes, r.pendingExn, r.fuelOut, r.polls + 1,
                r.crashAfterComplete⟩
      else timeoutPart env.exnAt c

/-- The whole `startProviderGeneration` body inside the outer `try` (index.ts
lines 845-959): processing writes, dispatch (with the local catch of lines
885-893), metadata write, then the polling loop. -/
def bodyV3 (env : Env3) : RunPart :=
  if env.exnAt = some 0 then ⟨[], some storeExnMsg, false, 0, false⟩
  else if env.exnAt = some 1 then ⟨[jobProcessingW3], some storeExnMsg, false, 0, false⟩
  else
    match env.dispatch with
    | .error e =>
        let p := pairWrites env.exnAt 2 (jobFailedW e) assetFailedW false
        ⟨jobProcessingW3 :: assetProcessingW :: p.1, p.2.1, false, 0, p.2.2⟩
    | .ok predictionId =>
        if env.exnAt = some 2 then
          ⟨[jobProcessingW3, assetProcessingW], some storeExnMsg, false, 0, false⟩
        else
          let r := loopV3 env 201 0 0 3
          ⟨jobProcessingW3 :: assetProcessingW :: assetMetaW env predictionId :: r.writes,
            r.pendingExn, r.fuelOut, r.polls, r.crashAfterComplete⟩

/-- The outer catch of `startProviderGeneration` (index.ts lines 960-971):
best-effort failure writes for the job and the asset (each guarded by its own
inner `try/catch` in the source). -/
def catchV3 (msg : String) : List Write :=
  [ .jobUpdate { status := some .failed, error_message := some msg }
  , .assetUpdate { status := some .failed } ]

/-- The writes the outer catch appends for a pending exception (none when the
body ran to completion). -/
def exnTail : Option String → List Write
  | none => []
  | some m => catchV3 m

/-- The full write trace of one `startProviderGeneration` run: the body's
writes, followed by the outer catch's writes when an exception escaped. -/
def traceV3 (env : Env3) : List Write :=
  (bodyV3 env).writes ++ exnTail (bodyV3 env).pendingExn

/-!
## Job id generation (index.ts lines 13-18 and 623-632)

`generateJobId` builds `btoa(prompt.substring(0,50) + "-" + timestamp + "-" +
nonce)`, strips every non-alphanumeric character, keeps 16 characters and
appends `"-" + nonce.substring(0,8)`.  Strings are modelled as `List Char`;
`btoa` (base64 over the Latin-1 bytes of its input — it throws on code points
above 255, so byte values are taken mod 256) is implemented below.
-/

/-- The standard base64 alphabet used by `btoa`. -/
def b64Alphabet : List Char :=
  "ABCDEFGHIJKLMNOPQRSTUVWXYZabcdefghijklmnopqrstuvwxyz0123456789+/".toList

/-- The base64 digit of a 6-bit value. -/
def b64Char (n : Nat) : Char := b64Alphabet.getD n 'A'

/-- Base64-encode a byte list, with `=` padding, three bytes at a time. -/
def btoaBytes : List Nat → List Char
  | [] => []
  | [b0] => [b64Char (b0 / 4), b64Char (b0 % 4 * 16), '=', '=']
  | [b0, b1] => [b64Char (b0 / 4), b64Char (b0 % 4 * 16 + b1 / 16), b64Char (b1 % 16 * 4), '=']
  | b0 :: b1 :: b2 :: rest =>
      b64Char (b0 / 4) :: b64Char (b0 % 4 * 16 + b1 / 16) ::
        b64Char (b1 % 16 * 4 + b2 / 64) :: b64Char (b2 % 64) :: btoaBytes rest

/-- `btoa` on a character list (Latin-1 bytes). -/
def btoa (s : List Char) : List Char :=
  btoaBytes (s.map (fun c => c.toNat % 256))

/-- Matches the regex class `[a-zA-Z0-9]` of the `.replace(/[^a-zA-Z0-9]/g, "")`
filter. -/
def isAlnumChar (c : Char) : Bool :=
  ('A' ≤ c && c ≤ 'Z') || ('a' ≤ c && c ≤ 'z') || ('0' ≤ c && c ≤ '9')

/-- `generateJobId` (index.ts lines 13-18): hash of the first 50 prompt
characters, the timestamp and the random nonce, then a nonce-derived suffix.
`timestamp` is `Date.now()` and `nonce` the `crypto.randomUUID()` string, both
resolved as parameters. -/
def generateJobId (prompt : List Char) (timestamp : Nat) (nonce : List Char) : List Char :=
  let input := prompt.take 50 ++ ('-' :: Nat.toDigits 10 timestamp) ++ ('-' :: nonce)
  let hash := ((btoa input).filter isAlnumChar).take 16
  hash ++ ('-' :: nonce.take 8)

/-- JS `String.prototype.trim` whitespace test (restricted to the ASCII
whitespace that can appear in the model). -/
def isWsChar (c : Char) : Bool :=
  c == ' ' || c == '\t' || c == '\n' || c == '\r'

/-- Drop leading and trailing whitespace of a character list. -/
def trimChars (s : List Char) : List Char :=
  ((s.dropWhile isWsChar).reverse.dropWhile isWsChar).reverse

/-- JS `String.prototype.trim` on a Lean string (drop leading and trailing
whitespace), via the character-list model. -/
def jsTrim (s : String) : String :=
  String.mk (trimChars s.data)

/-- `generateProviderJobId` (index.ts lines 623-632): like `generateJobId` but
hashing only the first 24 characters of the trimmed prompt and embedding the
raw timestamp in the id. -/
def generateProviderJobId (prompt : List Char) (timestamp : Nat) (nonce : List Char) : List Char :=
  let pfx := (trimChars prompt).take 24
  let hash := ((btoa (pfx ++ ('-' :: Nat.toDigits 10 timestamp) ++ ('-' :: nonce))).filter
      isAlnumChar).take 16
  hash ++ ('-' :: Nat.toDigits 10 timestamp) ++ ('-' :: nonce.take 8)

/-!
## Create handlers (the `serve` callbacks, post-authentication)

The create path of each variant: validate the prompt, insert the
`media_assets` row, insert the `video_jobs` row, hand the background task to
`EdgeRuntime.waitUntil` and answer immediately.  The handler is modelled from
the parsed request onward; CORS, env and auth checks happen before and touch
no job state.  Insert failures of the store are environment flags; a failed
insert leaves the table unchanged.  Response bodies are association lists so
that the presence and spelling of JSON keys can be stated.
-/

/-- The `prompt` field of a parsed request body: missing, present but not a
string, or a string. -/
inductive PromptVal where
  | absent
  | nonString
  | str (s : String)
deriving DecidableEq, Repr

/-- A parsed create request (after destructuring defaults: `duration` and
`aspectRatio` carry their `"5s"` / `"16:9"` defaults when absent). -/
structure CreateReq where
  prompt : PromptVal
  duration : String
  aspectRatio : String
  appId : Option Nat
deriving DecidableEq, Repr

/-- Environment of one create-request run: the values of the wall clock and
random sources, and whether each store insert fails. -/
structure CreateEnv where
  seed : Nat
  timestampMs : Nat
  isoTimestamp : String
  nonce : List Char
  assetInsertFails : Bool
  jobInsertFails : Bool
deriving DecidableEq, Repr

/-- A `media_assets` row as the create path writes it. -/
structure AssetRow where
  id : Nat
  status : JobStatus
  prompt : String
  metadata : AssetMeta
deriving DecidableEq, Repr

/-- A `video_jobs` row as the create path writes it. -/
structure JobRow where
  id : Nat
  media_asset_id : Nat
  status : JobStatus
  progress : Nat
  provider_job_id : Option String
deriving DecidableEq, Repr

/-- The store visible to the create handlers; `nextId` models the store
assigning fresh primary keys on insert. -/
structure DbState where
  assets : List AssetRow
  jobs : List JobRow
  nextId : Nat
deriving DecidableEq, Repr

/-- A JSON value of a response body. -/
inductive RVal where
  | s (v : String)
  | n (v : Nat)
  | b (v : Bool)
deriving DecidableEq, Repr

/-- An HTTP response: status code and JSON body as a key-value list. -/
structure HttpResp where
  status : Nat
  body : List (String × RVal)
deriving DecidableEq, Repr

/-- Value of a body key, if present. -/
def lookupKey (body : List (String × RVal)) (k : String) : Option RVal :=
  (body.find? (fun p => p.1 == k)).map (fun p => p.2)

/-- A 4xx/5xx error response `{ error: message }`. -/
def errResp (status : Nat) (msg : String) : HttpResp :=
  { status := status, body := [("error", .s msg)] }

/-- Variant 1 create handler (index.ts lines 110-228): validation, asset
insert, job insert (NO cleanup of the asset when the job insert fails),
immediate 200 response. -/
def createV1 (env : CreateEnv) (req : CreateReq) (db : DbState) : HttpResp × DbState :=
  match req.prompt with
  | .absent => (errResp 400 "Prompt is required", db)
  | .nonString => (errResp 400 "Prompt is required", db)
  | .str s =>
    if (jsTrim s).length == 0 then (errResp 400 "Prompt is required", db)
    else
      let userPrompt := jsTrim s
      let uniqueJobId := String.mk (generateJobId userPrompt.toList env.timestampMs env.nonce)
      let payload : ProviderPayloadV1 :=
        { prompt := userPrompt, duration := req.duration, aspectRatio := req.aspectRatio
          seed := env.seed, timestamp := env.isoTimestamp, jobId := uniqueJobId, cache := false }
      if env.assetInsertFails then (errResp 500 "Failed to create video job", db)
      else
        let assetId := db.nextId
        let db1 : DbState :=
          { assets := db.assets ++
              [{ id := assetId, status := .pending, prompt := userPrompt
                 metadata := .creationV1 req.duration req.aspectRatio env.seed uniqueJobId
                     payload userPrompt env.isoTimestamp }]
            jobs := db.jobs, nextId := db.nextId + 1 }
        if env.jobInsertFails then (errResp 500 "Failed to create video job", db1)
        else
          let jobId := db1.nextId
          let db2 : DbState :=
            { assets := db1.assets
              jobs := db1.jobs ++
                [{ id := jobId, media_asset_id := assetId, status := .pending, progress := 0
                   provider_job_id := some uniqueJobId }]
              nextId := db1.nextId + 1 }
          ({ status := 200
             body := [ ("success", .b true), ("jobId", .n jobId)
                     , ("providerJobId", .s uniqueJobId), ("mediaAssetId", .n assetId)
                     , ("status", .s "pending"), ("prompt", .s userPrompt)
                     , ("seed", .n env.seed)
                     , ("message", .s "Video generation job created. Poll for status updates.") ] },
           db2)

/-- `part_002` create handler (lines 142-254): identical to variant 1 except
that a failing job insert deletes the just-created media asset before the 500
response. -/
def createP2 (env : CreateEnv) (req : CreateReq) (db : DbState) : HttpResp × DbState :=
  match req.prompt with
  | .absent => (errResp 400 "Prompt is required", db)
  | .nonString => (errResp 400 "Prompt is required", db)
  | .str s =>
    if (jsTrim s).length == 0 then (errResp 400 "Prompt is required", db)
    else
      let userPrompt := jsTrim s
      let uniqueJobId := String.mk (generateJobId userPrompt.toList env.timestampMs env.nonce)
      let payload : ProviderPayloadV1 :=
        { prompt := userPrompt, duration := req.duration, aspectRatio := req.aspectRatio
          seed := env.seed, timestamp := env.isoTimestamp, jobId := uniqueJobId, cache := false }
      if env.assetInsertFails then (errResp 500 "Failed to create video job: insert failed", db)
      else
        let assetId := db.nextId
        let db1 : DbState :=
          { assets := db.assets ++
              [{ id := assetId, status := .pending, prompt := userPrompt
                 metadata := .creationV1 req.duration req.aspectRatio env.seed uniqueJobId
                     payload userPrompt env.isoTimestamp }]
            jobs := db.jobs, nextId := db.nextId + 1 }
        if env.jobInsertFails then
          let db1' : DbState :=
            { assets := db1.assets.filter (fun a => a.id ≠ assetId)
              jobs := db1.jobs, nextId := db1.nextId }
          (errResp 500 "Failed to create video job: insert failed", db1')
        else
          let jobId := db1.nextId
          let db2 : DbState :=
            { assets := db1.assets
              jobs := db1.jobs ++
                [{ id := jobId, media_asset_id := assetId, status := .pending, progress := 0
                   provider_job_id := some uniqueJobId }]
              nextId := db1.nextId + 1 }
          ({ status := 200
             body := [ ("success", .b true), ("jobId", .n jobId)
                     , ("providerJobId", .s uniqueJobId), ("mediaAssetId", .n assetId)
                     , ("status", .s "pending"), ("prompt", .s userPrompt)
                     , ("seed", .n env.seed)
                     , ("message", .s "Video generation job created. Poll for status updates.") ] },
           db2)

/-- Variant 3 create handler (index.ts lines 713-811): `body.prompt?.trim()`
throws on a non-string prompt (caught by the outer catch as a 500); the
success response carries status `"queued"` and no `seed` field; a failing job
insert deletes the just-created asset. -/
def createV3 (env : CreateEnv) (req : CreateReq) (db : DbState) : HttpResp × DbState :=
  match req.prompt with
  | .absent => (errResp 400 "Prompt is required", db)
  | .nonString => (errResp 500 "Unhandled server error", db)
  | .str s =>
    if (jsTrim s).length == 0 then (errResp 400 "Prompt is required", db)
    else
      let userPrompt := jsTrim s
      let providerJobId :=
        String.mk (generateProviderJobId userPrompt.toList env.timestampMs env.nonce)
      let payload : ProviderPayloadV3 :=
        { prompt := userPrompt, seed := env.seed, aspect_ratio := req.aspectRatio
          duration := req.duration, cache := false, nonce := providerJobId
          created_at := env.isoTimestamp }
      if env.assetInsertFails then (errResp 500 "Failed to create media asset", db)
      else
        let assetId := db.nextId
        let db1 : DbState :=
          { assets := db.assets ++
              [{ id := assetId, status := .pending, prompt := userPrompt
                 metadata := .creationV3 providerJobId userPrompt userPrompt payload env.seed
                     req.duration req.aspectRatio env.isoTimestamp }]
            jobs := db.jobs, nextId := db.nextId + 1 }
        if env.jobInsertFails then
          let db1' : DbState :=
            { assets := db1.assets.filter (fun a => a.id ≠ assetId)
              jobs := db1.jobs, nextId := db1.nextId }
          (errResp 500 "Failed to create video job", db1')
        else
          let jobId := db1.nextId
          let db2 : DbState :=
            { assets := db1.assets
              jobs := db1.jobs ++
                [{ id := jobId, media_asset_id := assetId, status := .pending, progress := 0
                   provider_job_id := some providerJobId }]
              nextId := db1.nextId + 1 }
          ({ status := 200
             body := [ ("success", .b true), ("jobId", .n jobId), ("status", .s "queued")
                     , ("providerJobId", .s providerJobId), ("mediaAssetId", .n assetId) ] },
           db2)

/-- The prompt-validation test of variant 1 and `part_002`:
`!prompt || typeof prompt !== "string" || prompt.trim().length === 0`. -/
def promptInvalidV1 : PromptVal → Bool
  | .absent => true
  | .nonString => true
  | .str s => (jsTrim s).length == 0

/-!
## Claim-level predicates

Decidable formulations of the spec invariants, evaluated over the write
traces of the background tasks and over store states.
-/

/-- The sequence of values written to `video_jobs.status` by a write trace. -/
def jobStatusWrites (ws : List Write) : List JobStatus :=
  ws.filterMap (fun w => match w with | .jobUpdate u => u.status | _ => none)

/-- The sequence of values written to `video_jobs.progress` by a write trace. -/
def progressWrites (ws : List Write) : List Nat :=
  ws.filterMap (fun w => match w with | .jobUpdate u => u.progress | _ => none)

/-- Adjacent ordinals never decrease along the list. -/
def ordinalMono : List JobStatus → Bool
  | [] => true
  | [_] => true
  | a :: b :: rest => decide (a.ordinal ≤ b.ordinal) && ordinalMono (b :: rest)

/-- Once a terminal status appears, every later status equals it. -/
def terminalOk : List JobStatus → Bool
  | [] => true
  | s :: rest => if s.isTerminal then rest.all (fun t => t == s) else terminalOk rest

/-- The full status invariant of claim C1 over a job's write trace (the row is
inserted with status `pending`): ordinals only move forward, and a terminal
status is never changed afterwards. -/
def claimC1Holds (ws : List Write) : Bool :=
  ordinalMono (.pending :: jobStatusWrites ws) && terminalOk (jobStatusWrites ws)

/-- Adjacent values never decrease along the list. -/
def monoNat : List Nat → Bool
  | [] => true
  | [_] => true
  | a :: b :: rest => decide (a ≤ b) && monoNat (b :: rest)

/-- Per-write progress discipline of claim C8: any progress value written
outside the `completed` transition stays strictly below 100. -/
def progressWriteOK : Write → Bool
  | .jobUpdate u =>
      match u.status, u.progress with
      | some .completed, _ => true
      | _, some p => decide (p < 100)
      | _, none => true
  | _ => true

/-- No media asset is left `pending` without a `video_jobs` row pointing at
it. -/
def noOrphanPending (db : DbState) : Bool :=
  db.assets.all (fun a =>
    !(a.status == .pending) || db.jobs.any (fun j => j.media_asset_id == a.id))

/-- A write that does not replace the asset's metadata column. -/
def noMetaWrite : Write → Bool
  | .assetUpdate u => u.metadata.isNone
  | _ => true

/-!
## Helper lemmas
-/

lemma syntheticProgress_le (e : Nat) : syntheticProgress e ≤ 90 := by
  unfold syntheticProgress
  have := Nat.min_le_left 80 (e / 3000 * 5)
  omega

lemma syntheticProgress_mono {e e' : Nat} (h : e ≤ e') :
    syntheticProgress e ≤ syntheticProgress e' := by
  unfold syntheticProgress
  have h1 : e / 3000 * 5 ≤ e' / 3000 * 5 :=
    Nat.mul_le_mul_right 5 (Nat.div_le_div_right h)
  have h2 : min 80 (e / 3000 * 5) ≤ min 80 (e' / 3000 * 5) := min_le_min (le_refl 80) h1
  omega

lemma monoNat_cons (a : Nat) (l : List Nat) :
    monoNat (a :: l) = true ↔ (∀ b, l.head? = some b → a ≤ b) ∧ monoNat l = true := by
  cases l with
  | nil => simp [monoNat]
  | cons b t =>
      simp only [monoNat, Bool.and_eq_true, decide_eq_true_eq, List.head?]
      constructor
      · rintro ⟨h1, h2⟩
        exact ⟨fun x hx => by cases hx; exact h1, h2⟩
      · rintro ⟨h1, h2⟩
        exact ⟨h1 b rfl, h2⟩

lemma jobStatusWrites_append (xs ys : List Write) :
    jobStatusWrites (xs ++ ys) = jobStatusWrites xs ++ jobStatusWrites ys := by
  simp [jobStatusWrites, List.filterMap_append]

lemma progressWrites_append (xs ys : List Write) :
    progressWrites (xs ++ ys) = progressWrites xs ++ progressWrites ys := by
  simp [progressWrites, List.filterMap_append]

lemma progressWrites_exnTail (pe : Option String) : progressWrites (exnTail pe) = [] := by
  cases pe <;> rfl

/-- Every status written by the polling loop (catch included) is terminal. -/
lemma loop_statuses_terminal (env : Env3) :
    ∀ fuel i e c,
      ((jobStatusWrites ((loopV3 env fuel i e c).writes ++
          exnTail (loopV3 env fuel i e c).pendingExn)).all JobStatus.isTerminal) = true := by
  intro fuel
  induction fuel with
  | zero =>
      intro i e c
      simp only [loopV3]
      split
      · rfl
      · unfold timeoutPart pairWrites
        split
        · rfl
        · split <;> rfl
  | succ fuel ih =>
      intro i e c
      simp only [loopV3]
      split
      · split
        · rfl
        · simp only [pairWrites]
          split
          · rfl
          · split <;> rfl
        · simp only [pairWrites]
          split
          · rfl
          · split <;> rfl
        · simp only [pairWrites]
          split
          · rfl
          · split <;> rfl
        · split
          · rfl
          · have h := ih (i + 1) (e + 3000 + env.extra i) (c + 1)
            simpa [jobStatusWrites, progressW, List.filterMap_cons] using h
      · unfold timeoutPart pairWrites
        split
        · rfl
        · split <;> rfl

/-- Unless a store write threw immediately after the job's `completed` write,
a terminal status written by the polling loop is never followed by a different
status (catch included). -/
lemma loop_terminalOk (env : Env3) :
    ∀ fuel i e c, (loopV3 env fuel i e c).crashAfterComplete = false →
      terminalOk (jobStatusWrites ((loopV3 env fuel i e c).writes ++
        exnTail (loopV3 env fuel i e c).pendingExn)) = true := by
  intro fuel
  induction fuel with
  | zero =>
      intro i e c
      simp only [loopV3]
      split
      · intro _; rfl
      · unfold timeoutPart pairWrites
        split
        · intro _; rfl
        · split <;> intro _ <;> rfl
  | succ fuel ih =>
      intro i e c
      simp only [loopV3]
      split
      · split
        · intro _; rfl
        · simp only [pairWrites]
          split
          · intro _; rfl
          · split
            · intro h; exact absurd h (by decide)
            · intro _; rfl
        · simp only [pairWrites]
          split
          · intro _; rfl
          · split <;> intro _ <;> rfl
        · simp only [pairWrites]
          split
          · intro _; rfl
          · split <;> intro _ <;> rfl
        · split
          · intro _; rfl
          · intro h
            have h2 := ih (i + 1) (e + 3000 + env.extra i) (c + 1) h
            simpa [jobStatusWrites, progressW, List.filterMap_cons] using h2
      · unfold timeoutPart pairWrites
        split
        · intro _; rfl
        · split <;> intro _ <;> rfl

/-- With fuel covering the wall-clock ceiling (each iteration consumes at
least 3000 ms), the loop's fuel never runs out: the model's recursion bound is
not observable.  The entry point uses fuel 201 from elapsed 0, and
`timeoutMs + 3000 ≤ 0 + 3000 * 201`. -/
lemma loopV3_fuel_sufficient (env : Env3) :
    ∀ fuel i e c, timeoutMs + 3000 ≤ e + 3000 * fuel →
      (loopV3 env fuel i e c).fuelOut = false := by
  intro fuel
  induction fuel with
  | zero =>
      intro i e c h
      simp only [loopV3]
      split
      · next hcond => exact absurd hcond (by omega)
      · rfl
  | succ fuel ih =>
      intro i e c h
      simp only [loopV3]
      split
      · split
        · rfl
        · rfl
        · rfl
        · rfl
        · split
          · rfl
          · exact ih (i + 1) (e + 3000 + env.extra i) (c + 1) (by omega)
      · rfl

/-- The loop performs at most `(timeoutMs - e + 2999) / 3000` provider polls
when entered at elapsed time `e` — at most 200 from elapsed 0. -/
lemma loop_polls_le (env : Env3) :
    ∀ fuel i e c, (loopV3 env fuel i e c).polls ≤ (timeoutMs - e + 2999) / 3000 := by
  intro fuel
  induction fuel with
  | zero =>
      intro i e c
      simp only [loopV3]
      split
      · exact Nat.zero_le _
      · exact Nat.zero_le _
  | succ fuel ih =>
      intro i e c
      simp only [loopV3]
      split
      · next hcond =>
        split
        · simp only [timeoutMs] at hcond ⊢; omega
        · simp only [timeoutMs] at hcond ⊢; omega
        · simp only [timeoutMs] at hcond ⊢; omega
        · simp only [timeoutMs] at hcond ⊢; omega
        · split
          · simp only [timeoutMs] at hcond ⊢; omega
          · have h2 := ih (i + 1) (e + 3000 + env.extra i) (c + 1)
            simp only [timeoutMs] at hcond h2 ⊢
            omega
      · exact Nat.zero_le _

/-- The polling loop never touches the asset's metadata column. -/
lemma loop_noMeta (env : Env3) :
    ∀ fuel i e c, ((loopV3 env fuel i e c).writes).all noMetaWrite = true := by
  intro fuel
  induction fuel with
  | zero =>
      intro i e c
      simp only [loopV3]
      split
      · rfl
      · unfold timeoutPart pairWrites
        split
        · rfl
        · split <;> rfl
  | succ fuel ih =>
      intro i e c
      simp only [loopV3]
      split
      · split
        · rfl
        · simp only [pairWrites]
          split
          · rfl
          · split <;> rfl
        · simp only [pairWrites]
          split
          · rfl
          · split <;> rfl
        · simp only [pairWrites]
          split
          · rfl
          · split <;> rfl
        · split
          · rfl
          · have h2 := ih (i + 1) (e + 3000 + env.extra i) (c + 1)
            simpa [progressW, noMetaWrite] using h2
      · unfold timeoutPart pairWrites
        split
        · rfl
        · split <;> rfl

/-- Progress values written by the loop are non-decreasing, and the first one
is at least the synthetic estimate of the entry elapsed time. -/
lemma loop_progress (env : Env3) :
    ∀ fuel i e c,
      monoNat (progressWrites (loopV3 env fuel i e c).writes) = true ∧
      (∀ b, (progressWrites (loopV3 env fuel i e c).writes).head? = some b →
        syntheticProgress e ≤ b) := by
  intro fuel
  induction fuel with
  | zero =>
      intro i e c
      simp only [loopV3]
      split
      · exact ⟨rfl, fun b hb => by cases hb⟩
      · unfold timeoutPart pairWrites
        split
        · exact ⟨rfl, fun b hb => by cases hb⟩
        · split
          · exact ⟨rfl, fun b hb => by cases hb⟩
          · exact ⟨rfl, fun b hb => by cases hb⟩
  | succ fuel ih =>
      intro i e c
      simp only [loopV3]
      split
      · split
        · exact ⟨rfl, fun b hb => by cases hb⟩
        · simp only [pairWrites]
          split
          · exact ⟨rfl, fun b hb => by cases hb⟩
          · split
            · refine ⟨rfl, fun b hb => ?_⟩
              have hb' : b = 100 := by
                simpa [progressWrites, jobCompletedW] using hb.symm
              have := syntheticProgress_le e
              omega
            · refine ⟨rfl, fun b hb => ?_⟩
              have hb' : b = 100 := by
                simpa [progressWrites, jobCompletedW, assetCompletedW] using hb.symm
              have := syntheticProgress_le e
              omega
        · simp only [pairWrites]
          split
          · exact ⟨rfl, fun b hb => by cases hb⟩
          · split
            · exact ⟨rfl, fun b hb => by cases hb⟩
            · exact ⟨rfl, fun b hb => by cases hb⟩
        · simp only [pairWrites]
          split
          · exact ⟨rfl, fun b hb => by cases hb⟩
          · split
            · exact ⟨rfl, fun b hb => by cases hb⟩
            · exact ⟨rfl, fun b hb => by cases hb⟩
        · split
          · exact ⟨rfl, fun b hb => by cases hb⟩
          · have h2 := ih (i + 1) (e + 3000 + env.extra i) (c + 1)
            have hmono : syntheticProgress e ≤ syntheticProgress (e + 3000 + env.extra i) :=
              syntheticProgress_mono (by omega)
            constructor
            · have hcons :
                  progressWrites (progressW e ::
                    (loopV3 env fuel (i + 1) (e + 3000 + env.extra i) (c + 1)).writes) =
                  syntheticProgress e ::
                    progressWrites (loopV3 env fuel (i + 1) (e + 3000 + env.extra i) (c + 1)).writes := by
                simp [progressWrites, progressW]
              rw [hcons, monoNat_cons]
              exact ⟨fun b hb => le_trans hmono (h2.2 b hb), h2.1⟩
            · intro b hb
              have hb' : b = syntheticProgress e := by
                simpa [progressWrites, progressW] using hb.symm
              omega
      · unfold timeoutPart pairWrites
        split
        · exact ⟨rfl, fun b hb => by cases hb⟩
        · split
          · exact ⟨rfl, fun b hb => by cases hb⟩
          · exact ⟨rfl, fun b hb => by cases hb⟩

/-- Every loop write obeys the per-write progress discipline: outside the
`completed` transition, progress stays strictly below 100. -/
lemma loop_progressOK (env : Env3) :
    ∀ fuel i e c, ((loopV3 env fuel i e c).writes).all progressWriteOK = true := by
  intro fuel
  induction fuel with
  | zero =>
      intro i e c
      simp only [loopV3]
      split
      · rfl
      · unfold timeoutPart pairWrites
        split
        · rfl
        · split <;> rfl
  | succ fuel ih =>
      intro i e c
      simp only [loopV3]
      split
      · split
        · rfl
        · simp only [pairWrites]
          split
          · rfl
          · split <;> rfl
        · simp only [pairWrites]
          split
          · rfl
          · split <;> rfl
        · simp only [pairWrites]
          split
          · rfl
          · split <;> rfl
        · split
          · rfl
          · have h2 := ih (i + 1) (e + 3000 + env.extra i) (c + 1)
            have hlt : syntheticProgress e < 100 := by
              have := syntheticProgress_le e; omega
            simp only [List.all_cons, Bool.and_eq_true]
            exact ⟨by simp [progressW, progressWriteOK, hlt], h2⟩
      · unfold timeoutPart pairWrites
        split
        · rfl
        · split <;> rfl

/-- When every poll answers a non-terminal status and no store write throws,
the loop's writes end with the timeout failure pair and no exception escapes. -/
lemma loop_timeout (env : Env3) (hpoll : ∀ j, env.poll j = Except.ok PStatus.other)
    (hexn : env.exnAt = none) :
    ∀ fuel i e c, timeoutMs + 3000 ≤ e + 3000 * fuel →
      (∃ pre, (loopV3 env fuel i e c).writes =
          pre ++ [jobFailedW "Provider timed out", assetFailedW]) ∧
      (loopV3 env fuel i e c).pendingExn = none := by
  intro fuel
  induction fuel with
  | zero =>
      intro i e c h
      simp only [loopV3]
      split
      · next hcond => exact absurd hcond (by omega)
      · unfold timeoutPart pairWrites
        rw [hexn]
        simp only [reduceCtorEq, if_false]
        exact ⟨⟨[], rfl⟩, by trivial⟩
  | succ fuel ih =>
      intro i e c h
      simp only [loopV3]
      split
      · rw [hpoll i, hexn]
        simp only [reduceCtorEq, if_false]
        obtain ⟨⟨pre, hpre⟩, hpe⟩ := ih (i + 1) (e + 3000 + env.extra i) (c + 1) (by omega)
        exact ⟨⟨progressW e :: pre, by simp [hpre]⟩, hpe⟩
      · unfold timeoutPart pairWrites
        rw [hexn]
        simp only [reduceCtorEq, if_false]
        exact ⟨⟨[], rfl⟩, by trivial⟩

lemma applyAll_cons (s : PipeState) (w : Write) (ws : List Write) :
    applyAll s (w :: ws) = applyAll (applyWrite s w) ws := rfl

lemma applyAll_append (s : PipeState) (xs ys : List Write) :
    applyAll s (xs ++ ys) = applyAll (applyAll s xs) ys := by
  simp [applyAll, List.foldl_append]

/-- When the `k`-th poll (counting from the loop's entry iteration) reports
`succeeded url` after `k` non-terminal polls, and the ceiling and fuel are not
yet exhausted, the loop completes the job: status completed, progress 100,
`completed_at` stamped, asset completed with `file_url = url`, metadata
untouched, no escaping exception. -/
lemma loop_succeeded (env : Env3) (url : String)
    (hexn : env.exnAt = none) (hextra : ∀ j, env.extra j = 0) :
    ∀ k fuel i e c s,
      (∀ j, j < k → env.poll (i + j) = Except.ok PStatus.other) →
      env.poll (i + k) = Except.ok (PStatus.succeeded url) →
      e + 3000 * k < timeoutMs → k < fuel →
      (loopV3 env fuel i e c).pendingExn = none ∧
      (applyAll s (loopV3 env fuel i e c).writes).job.status = JobStatus.completed ∧
      (applyAll s (loopV3 env fuel i e c).writes).job.progress = 100 ∧
      (applyAll s (loopV3 env fuel i e c).writes).job.completed_at = some 0 ∧
      (applyAll s (loopV3 env fuel i e c).writes).asset.status = JobStatus.completed ∧
      (applyAll s (loopV3 env fuel i e c).writes).asset.file_url = some url ∧
      (applyAll s (loopV3 env fuel i e c).writes).asset.metadata = s.asset.metadata := by
  intro k
  induction k with
  | zero =>
      intro fuel i e c s hrun hsucc he hfuel
      cases fuel with
      | zero => omega
      | succ f =>
          have hi : env.poll i = Except.ok (PStatus.succeeded url) := by simpa using hsucc
          have he' : e < timeoutMs := by omega
          simp only [loopV3, if_pos he', hi, pairWrites, hexn, reduceCtorEq, if_false]
          refine ⟨by trivial, ?_, ?_, ?_, ?_, ?_, ?_⟩ <;>
            simp [applyAll, applyWrite, jobCompletedW, assetCompletedW]
  | succ k ihk =>
      intro fuel i e c s hrun hsucc he hfuel
      cases fuel with
      | zero => omega
      | succ f =>
          have hi : env.poll i = Except.ok PStatus.other := by
            simpa using hrun 0 (Nat.succ_pos k)
          have he' : e < timeoutMs := by omega
          simp only [loopV3, if_pos he', hi, hexn, reduceCtorEq, if_false]
          have hrun' : ∀ j, j < k → env.poll (i + 1 + j) = Except.ok PStatus.other := by
            intro j hj
            have hidx : i + 1 + j = i + (j + 1) := by omega
            rw [hidx]
            exact hrun (j + 1) (by omega)
          have hsucc' : env.poll (i + 1 + k) = Except.ok (PStatus.succeeded url) := by
            have hidx : i + 1 + k = i + (k + 1) := by omega
            rw [hidx]; exact hsucc
          have hex0 := hextra i
          have he'' : (e + 3000 + env.extra i) + 3000 * k < timeoutMs := by omega
          have h2 := ihk f (i + 1) (e + 3000 + env.extra i) (c + 1)
            (applyWrite s (progressW e)) hrun' hsucc' he'' (by omega)
          refine ⟨h2.1, ?_⟩
          rw [applyAll_cons]
          refine ⟨h2.2.1, h2.2.2.1, h2.2.2.2.1, h2.2.2.2.2.1, h2.2.2.2.2.2.1, ?_⟩
          rw [h2.2.2.2.2.2.2]
          rfl

lemma exnTail_noMeta (pe : Option String) : (exnTail pe).all noMetaWrite = true := by
  cases pe <;> rfl

lemma exnTail_progressOK (pe : Option String) : (exnTail pe).all progressWriteOK = true := by
  cases pe <;> rfl

/-- Writes that never touch the metadata column leave it unchanged. -/
lemma applyAll_noMeta :
    ∀ (ws : List Write), ws.all noMetaWrite = true →
      ∀ s, (applyAll s ws).asset.metadata = s.asset.metadata := by
  intro ws
  induction ws with
  | nil => intro _ s; rfl
  | cons w t ih =>
      intro h s
      rw [List.all_cons, Bool.and_eq_true] at h
      rw [applyAll_cons, ih h.2]
      cases w with
      | jobUpdate u => rfl
      | assetUpdate u =>
          have h1 := h.1
          simp only [noMetaWrite, Option.isNone_iff_eq_none] at h1
          simp [applyWrite, h1]

/-- Any list of statuses that are all terminal is ordinal-monotone. -/
lemma ordinalMono_of_terminal :
    ∀ l : List JobStatus, l.all JobStatus.isTerminal = true → ordinalMono l = true := by
  intro l
  induction l with
  | nil => intro _; rfl
  | cons a t ih =>
      intro h
      rw [List.all_cons, Bool.and_eq_true] at h
      cases t with
      | nil => rfl
      | cons b t2 =>
          have hb : b.isTerminal = true := by
            have := h.2
            rw [List.all_cons, Bool.and_eq_true] at this
            exact this.1
          have hmono := ih h.2
          simp only [ordinalMono, Bool.and_eq_true, decide_eq_true_eq]
          refine ⟨?_, hmono⟩
          cases a <;> cases b <;> simp_all [JobStatus.isTerminal, JobStatus.ordinal]

/-- Prefixing `pending :: processing ::` before all-terminal statuses stays
ordinal-monotone. -/
lemma ordinalMono_pend_proc (l : List JobStatus) (h : l.all JobStatus.isTerminal = true) :
    ordinalMono (.pending :: .processing :: l) = true := by
  cases l with
  | nil => rfl
  | cons a t =>
      have ha : a.isTerminal = true := by
        rw [List.all_cons, Bool.and_eq_true] at h
        exact h.1
      have hmono := ordinalMono_of_terminal _ h
      simp only [ordinalMono, Bool.and_eq_true, decide_eq_true_eq]
      refine ⟨by simp [JobStatus.ordinal], ?_, hmono⟩
      cases a <;> simp_all [JobStatus.isTerminal, JobStatus.ordinal]

lemma terminalOk_processing_cons (l : List JobStatus) :
    terminalOk (.processing :: l) = terminalOk l := rfl

/-- The C1 invariant over a full variant-3 run: status ordinals never move
backwards, and when no store write threw right after the job's completed
write, a terminal status is never changed afterwards. -/
lemma traceV3_claimC1 (env : Env3) :
    ordinalMono (.pending :: jobStatusWrites (traceV3 env)) = true ∧
    ((bodyV3 env).crashAfterComplete = false →
      terminalOk (jobStatusWrites (traceV3 env)) = true) := by
  unfold traceV3 bodyV3
  split
  · exact ⟨rfl, fun _ => rfl⟩
  · split
    · exact ⟨rfl, fun _ => rfl⟩
    · split
      · unfold pairWrites
        split
        · exact ⟨rfl, fun _ => rfl⟩
        · split
          · exact ⟨rfl, fun _ => rfl⟩
          · exact ⟨rfl, fun _ => rfl⟩
      · split
        · exact ⟨rfl, fun _ => rfl⟩
        · rename_i pid hpid hne2
          have hS :
              jobStatusWrites
                ((jobProcessingW3 :: assetProcessingW :: assetMetaW env pid ::
                  (loopV3 env 201 0 0 3).writes) ++ exnTail (loopV3 env 201 0 0 3).pendingExn) =
              .processing :: jobStatusWrites
                ((loopV3 env 201 0 0 3).writes ++ exnTail (loopV3 env 201 0 0 3).pendingExn) := by
            simp [jobStatusWrites, jobProcessingW3, assetProcessingW, assetMetaW,
              List.filterMap_cons]
          constructor
          · rw [hS]
            exact ordinalMono_pend_proc _ (loop_statuses_terminal env 201 0 0 3)
          · intro h
            rw [hS, terminalOk_processing_cons]
            exact loop_terminalOk env 201 0 0 3 h

/-- The C1 ordinal invariant over every variant-1 run: at any exception point,
status ordinals never move backwards. -/
lemma traceV1_ordinalMono (a : ArgsV1) (exn : Option Nat) :
    ordinalMono (.pending :: jobStatusWrites (traceV1 a exn)) = true := by
  cases exn with
  | none => rfl
  | some i =>
      simp only [traceV1]
      split
      · next hi =>
          have hi8 : i < 8 := by simpa [bodyV1] using hi
          interval_cases i <;> rfl
      · rfl

/-- Terminal immutability over a variant-1 run, except when the store throw
hits the final asset-completion write (body index 7), whose catch handler then
overwrites the already-persisted `completed` with `failed`. -/
lemma traceV1_terminalOk (a : ArgsV1) (exn : Option Nat) (h : exn ≠ some 7) :
    terminalOk (jobStatusWrites (traceV1 a exn)) = true := by
  cases exn with
  | none => rfl
  | some i =>
      simp only [traceV1]
      split
      · next hi =>
          have hi8 : i < 8 := by simpa [bodyV1] using hi
          interval_cases i <;> first | rfl | exact absurd rfl h
      · rfl

/-- Progress discipline over every variant-1 run: non-decreasing from the
inserted 0, and below 100 outside the completed transition. -/
lemma traceV1_progress (a : ArgsV1) (exn : Option Nat) :
    monoNat (0 :: progressWrites (traceV1 a exn)) = true ∧
    (traceV1 a exn).all progressWriteOK = true := by
  cases exn with
  | none => exact ⟨rfl, rfl⟩
  | some i =>
      simp only [traceV1]
      split
      · next hi =>
          have hi8 : i < 8 := by simpa [bodyV1] using hi
          interval_cases i <;> exact ⟨rfl, rfl⟩
      · exact ⟨rfl, rfl⟩

/-- Progress discipline over every variant-3 run. -/
lemma traceV3_progress (env : Env3) :
    monoNat (0 :: progressWrites (traceV3 env)) = true ∧
    (traceV3 env).all progressWriteOK = true := by
  unfold traceV3 bodyV3
  split
  · exact ⟨rfl, rfl⟩
  · split
    · exact ⟨rfl, rfl⟩
    · split
      · unfold pairWrites
        split
        · exact ⟨rfl, rfl⟩
        · split
          · exact ⟨rfl, rfl⟩
          · exact ⟨rfl, rfl⟩
      · split
        · exact ⟨rfl, rfl⟩
        · rename_i pid hpid hne2
          have hPr :
              progressWrites
                ((jobProcessingW3 :: assetProcessingW :: assetMetaW env pid ::
                  (loopV3 env 201 0 0 3).writes) ++ exnTail (loopV3 env 201 0 0 3).pendingExn) =
              5 :: progressWrites (loopV3 env 201 0 0 3).writes := by
            have h1 :
                (jobProcessingW3 :: assetProcessingW :: assetMetaW env pid ::
                  (loopV3 env 201 0 0 3).writes) ++ exnTail (loopV3 env 201 0 0 3).pendingExn =
                jobProcessingW3 :: assetProcessingW :: assetMetaW env pid ::
                  ((loopV3 env 201 0 0 3).writes ++ exnTail (loopV3 env 201 0 0 3).pendingExn) := by
              simp
            have h2 : ∀ l : List Write,
                progressWrites (jobProcessingW3 :: assetProcessingW :: assetMetaW env pid :: l) =
                  5 :: progressWrites l := by
              intro l
              simp [progressWrites, List.filterMap_cons, jobProcessingW3, assetProcessingW,
                assetMetaW]
            rw [h1, h2, progressWrites_append, progressWrites_exnTail, List.append_nil]
          have hP := loop_progress env 201 0 0 3
          constructor
          · rw [hPr, monoNat_cons]
            refine ⟨fun b hb => Nat.zero_le b, ?_⟩
            rw [monoNat_cons]
            refine ⟨fun b hb => ?_, hP.1⟩
            have := hP.2 b hb
            have hsynth : syntheticProgress 0 = 10 := rfl
            omega
          · rw [List.all_append, Bool.and_eq_true]
            refine ⟨?_, exnTail_progressOK _⟩
            simp only [List.all_cons, Bool.and_eq_true]
            exact ⟨rfl, rfl, rfl, loop_progressOK env 201 0 0 3⟩

/-- `bodyV3` on the dispatch-succeeds, no-store-throw path. -/
lemma bodyV3_ok (env : Env3) (pid : String) (hdisp : env.dispatch = Except.ok pid)
    (hexn : env.exnAt = none) :
    bodyV3 env =
      ⟨jobProcessingW3 :: assetProcessingW :: assetMetaW env pid ::
          (loopV3 env 201 0 0 3).writes,
        (loopV3 env 201 0 0 3).pendingExn, (loopV3 env 201 0 0 3).fuelOut,
        (loopV3 env 201 0 0 3).polls, (loopV3 env 201 0 0 3).crashAfterComplete⟩ := by
  unfold bodyV3
  rw [hexn, hdisp]
  simp only [reduceCtorEq, if_false]

/-- The model's loop fuel is never exhausted from the entry point. -/
lemma bodyV3_fuelOut (env : Env3) : (bodyV3 env).fuelOut = false := by
  unfold bodyV3
  split
  · rfl
  · split
    · rfl
    · split
      · rfl
      · split
        · rfl
        · exact loopV3_fuel_sufficient env 201 0 0 3 (by simp [timeoutMs])

/-- A full variant-3 run performs at most 200 provider polls. -/
lemma bodyV3_polls (env : Env3) : (bodyV3 env).polls ≤ 200 := by
  unfold bodyV3
  split
  · exact Nat.zero_le _
  · split
    · exact Nat.zero_le _
    · split
      · exact Nat.zero_le _
      · split
        · exact Nat.zero_le _
        · show (loopV3 env 201 0 0 3).polls ≤ 200
          have h := loop_polls_le env 201 0 0 3
          simp only [timeoutMs] at h
          omega

/-- Applying any prefix and then the failure pair leaves the job failed with
the given message and the asset failed. -/
lemma applyAll_fail_pair (s : PipeState) (pre : List Write) (m : String) :
    (applyAll s (pre ++ [jobFailedW m, assetFailedW])).job.status = .failed ∧
    (applyAll s (pre ++ [jobFailedW m, assetFailedW])).job.error_message = some m ∧
    (applyAll s (pre ++ [jobFailedW m, assetFailedW])).asset.status = .failed := by
  rw [applyAll_append]
  exact ⟨rfl, rfl, rfl⟩

/-- Variant 3 never loses the `provider_request_payload` snapshot: if the
asset metadata holds it before the background task runs, it still holds it —
unchanged — after the whole run, exceptions and catch included. -/
lemma traceV3_preservePayload (env : Env3) (s : PipeState)
    (h : (s.asset.metadata).payloadV3 = some env.payload) :
    ((applyAll s (traceV3 env)).asset.metadata).payloadV3 = some env.payload := by
  unfold traceV3 bodyV3
  split
  · rw [applyAll_noMeta _ (by rfl) s]; exact h
  · split
    · rw [applyAll_noMeta _ (by rfl) s]; exact h
    · split
      · unfold pairWrites
        split
        · rw [applyAll_noMeta _ (by rfl) s]; exact h
        · split
          · rw [applyAll_noMeta _ (by rfl) s]; exact h
          · rw [applyAll_noMeta _ (by rfl) s]; exact h
      · split
        · rw [applyAll_noMeta _ (by rfl) s]; exact h
        · rename_i pid hpid hne2
          have hall :
              ((loopV3 env 201 0 0 3).writes ++
                exnTail (loopV3 env 201 0 0 3).pendingExn).all noMetaWrite = true := by
            rw [List.all_append, Bool.and_eq_true]
            exact ⟨loop_noMeta env 201 0 0 3, exnTail_noMeta _⟩
          have h1 :
              (jobProcessingW3 :: assetProcessingW :: assetMetaW env pid ::
                (loopV3 env 201 0 0 3).writes) ++ exnTail (loopV3 env 201 0 0 3).pendingExn =
              jobProcessingW3 :: assetProcessingW :: assetMetaW env pid ::
                ((loopV3 env 201 0 0 3).writes ++ exnTail (loopV3 env 201 0 0 3).pendingExn) := by
            simp
          rw [h1, applyAll_cons, applyAll_cons, applyAll_cons, applyAll_noMeta _ hall]
          rfl

lemma filter_ne_id (l : List AssetRow) (n : Nat) (h : l.all (fun a => a.id < n) = true) :
    (l.filter (fun a => a.id ≠ n)) = l := by
  induction l with
  | nil => rfl
  | cons a t ih =>
      rw [List.all_cons, Bool.and_eq_true] at h
      have ha : decide (a.id ≠ n) = true := by
        have := h.1
        simp only [decide_eq_true_eq] at this ⊢
        omega
      rw [List.filter_cons, if_pos ha, ih h.2]

/-!
## Claim theorems
-/

/-- C1 (counterexample): the claim "once status is Completed or Failed no
later write changes it" fails on the code as stated: when, in variant 1's
`processVideoJob`, the final asset-completion update (body write 7) throws
AFTER the job's completed update was already persisted, the catch block
(index.ts lines 346-352) blindly overwrites the job's `completed` with
`failed`. -/
theorem claim_C1_counterexample :
    claimC1Holds (traceV1
      { prompt := "a cat surfing", duration := "5s", aspectRatio := "16:9"
        seed := 0, providerJobId := "job-1" } (some 7)) = false := by
  decide

/-- C1 (amended): for every run of either background variant, the job's
persisted status ordinals never move backwards (`Pending -> Processing ->
terminal`, with `Pending/Processing -> Failed` legal); and a terminal status,
once written, is never changed — except in the single crash window in which a
store write throws immediately after the job's completed write (variant 1:
exception at body write 7; variant 3: `crashAfterComplete`), where the catch
handler overwrites `completed` with `failed`. -/
theorem claim_C1_amended :
    (∀ (a : ArgsV1) (exn : Option Nat),
        ordinalMono (.pending :: jobStatusWrites (traceV1 a exn)) = true) ∧
    (∀ env : Env3, ordinalMono (.pending :: jobStatusWrites (traceV3 env)) = true) ∧
    (∀ (a : ArgsV1) (exn : Option Nat), exn ≠ some 7 →
        terminalOk (jobStatusWrites (traceV1 a exn)) = true) ∧
    (∀ env : Env3, (bodyV3 env).crashAfterComplete = false →
        terminalOk (jobStatusWrites (traceV3 env)) = true) :=
  ⟨fun a exn => traceV1_ordinalMono a exn,
   fun env => (traceV3_claimC1 env).1,
   fun a exn h => traceV1_terminalOk a exn h,
   fun env h => (traceV3_claimC1 env).2 h⟩

/-- C1 (witness): the amended theorem applied to an exception-free variant-1
run and to a variant-3 run with a failing dispatch. -/
theorem claim_C1_witness :
    terminalOk (jobStatusWrites (traceV1
      { prompt := "a cat surfing", duration := "5s", aspectRatio := "16:9"
        seed := 0, providerJobId := "job-1" } none)) = true ∧
    terminalOk (jobStatusWrites (traceV3
      { payload := { prompt := "p", seed := 0, aspect_ratio := "16:9", duration := "5s"
                     cache := false, nonce := "n", created_at := "t" }
        providerJobId := "pj", dispatch := Except.error "boom"
        poll := fun _ => Except.ok PStatus.other, extra := fun _ => 0
        exnAt := none })) = true :=
  ⟨claim_C1_amended.2.2.1 _ none (by decide),
   claim_C1_amended.2.2.2 _ (by rfl)⟩

/-- C2: a create request whose prompt is absent, not a string, or empty after
trimming is answered with HTTP 400 and the store is left exactly unchanged —
no media-asset row and no video-job row is inserted (variant 1 and the
`part_002` handler, the implementations the claim cites). -/
theorem claim_C2 :
    ∀ (env : CreateEnv) (req : CreateReq) (db : DbState),
      promptInvalidV1 req.prompt = true →
      (createV1 env req db).1.status = 400 ∧ (createV1 env req db).2 = db ∧
      (createP2 env req db).1.status = 400 ∧ (createP2 env req db).2 = db := by
  intro env req db h
  rcases hp : req.prompt with _ | _ | s
  · simp [createV1, createP2, hp, errResp]
  · simp [createV1, createP2, hp, errResp]
  · rw [hp] at h
    have hz : ((jsTrim s).length == 0) = true := by simpa [promptInvalidV1] using h
    simp [createV1, createP2, hp, hz, errResp]

/-- C2 (witness): the theorem applied to a request with a missing prompt. -/
theorem claim_C2_witness :
    (createV1
        { seed := 7, timestampMs := 0, isoTimestamp := "t", nonce := "abcdefgh".toList
          assetInsertFails := false, jobInsertFails := false }
        { prompt := .absent, duration := "5s", aspectRatio := "16:9", appId := none }
        { assets := [], jobs := [], nextId := 0 }).1.status = 400 ∧
    (createV1
        { seed := 7, timestampMs := 0, isoTimestamp := "t", nonce := "abcdefgh".toList
          assetInsertFails := false, jobInsertFails := false }
        { prompt := .absent, duration := "5s", aspectRatio := "16:9", appId := none }
        { assets := [], jobs := [], nextId := 0 }).2 =
      { assets := [], jobs := [], nextId := 0 } :=
  ⟨(claim_C2 _ _ _ (by decide)).1, (claim_C2 _ _ _ (by decide)).2.1⟩

/-- C5: whenever an exception interrupts the background task at any awaited
point of its processing/dispatch/polling path, the task's error boundary still
appends the failure pair — mark the job failed with an error message, mark the
asset failed — before the task ends; the trace never ends without it.
Variant 1: for every exception index into the body; variant 3: for every run
whose body lets an exception escape to the outer catch. -/
theorem claim_C5 :
    (∀ (a : ArgsV1) (i : Nat), i < (bodyV1 a).length →
      ∃ pre, traceV1 a (some i) = pre ++ [jobFailedW storeExnMsg, assetFailedW]) ∧
    (∀ (env : Env3) (m : String), (bodyV3 env).pendingExn = some m →
      ∃ pre, traceV3 env = pre ++ [jobFailedW m, assetFailedW]) := by
  constructor
  · intro a i hi
    refine ⟨(bodyV1 a).take i, ?_⟩
    simp [traceV1, if_pos hi, catchV1, jobFailedW, assetFailedW]
  · intro env m h
    exact ⟨(bodyV3 env).writes, by simp [traceV3, h, exnTail, catchV3, jobFailedW, assetFailedW]⟩

/-- C5 (witness): the theorem applied to a variant-1 exception at the first
write and to a variant-3 run whose first store write throws. -/
theorem claim_C5_witness :
    (∃ pre, traceV1
        { prompt := "a cat surfing", duration := "5s", aspectRatio := "16:9"
          seed := 3, providerJobId := "job-1" } (some 0) =
      pre ++ [jobFailedW storeExnMsg, assetFailedW]) ∧
    (∃ pre, traceV3
        { payload := { prompt := "p", seed := 0, aspect_ratio := "16:9", duration := "5s"
                       cache := false, nonce := "n", created_at := "t" }
          providerJobId := "pj", dispatch := Except.error "boom"
          poll := fun _ => Except.ok PStatus.other, extra := fun _ => 0
          exnAt := some 0 } =
      pre ++ [jobFailedW storeExnMsg, assetFailedW]) :=
  ⟨claim_C5.1 _ 0 (by decide), claim_C5.2 _ storeExnMsg (by rfl)⟩

/-- C8: over every run of either background variant, the sequence of progress
values written (starting from the inserted 0) is non-decreasing, 100 is only
ever written by the `completed` transition itself, and the synthetic polling
estimate `10 + min(80, floor(elapsed/3000)*5)` is bounded by 90 < 100. -/
theorem claim_C8 :
    (∀ (a : ArgsV1) (exn : Option Nat),
      monoNat (0 :: progressWrites (traceV1 a exn)) = true ∧
      (traceV1 a exn).all progressWriteOK = true) ∧
    (∀ env : Env3,
      monoNat (0 :: progressWrites (traceV3 env)) = true ∧
      (traceV3 env).all progressWriteOK = true) ∧
    (∀ e : Nat, syntheticProgress e ≤ 90) :=
  ⟨traceV1_progress, traceV3_progress, syntheticProgress_le⟩

/-- C9: `generateJobId` reads only the first 50 characters of the prompt —
two prompts agreeing on that prefix yield the identical id under the same
timestamp and nonce, so the rest of the prompt never leaks into the id — and
the id's length is bounded by 25 characters regardless of the prompt's
length. -/
theorem claim_C9 :
    ∀ (p q : List Char) (t : Nat) (nonce : List Char),
      p.take 50 = q.take 50 →
      generateJobId p t nonce = generateJobId q t nonce ∧
      (generateJobId p t nonce).length ≤ 25 := by
  intro p q t nonce h
  constructor
  · unfold generateJobId
    rw [h]
  · unfold generateJobId
    simp only [List.length_append, List.length_take, List.length_cons]
    omega

/-- C9 (witness): two prompts agreeing on their first 50 characters and
differing afterwards give the same bounded-length id. -/
theorem claim_C9_witness :
    generateJobId (List.replicate 50 'a' ++ ['x']) 1734500000000 "abcd1234-efgh".toList =
      generateJobId (List.replicate 50 'a' ++ ['y', 'z']) 1734500000000 "abcd1234-efgh".toList ∧
    (generateJobId (List.replicate 50 'a' ++ ['x']) 1734500000000 "abcd1234-efgh".toList).length
      ≤ 25 :=
  claim_C9 _ _ 1734500000000 _ (by decide)

/-- C10 (counterexample): the claim that the `providerPayload` snapshot in the
asset's metadata is never modified or removed fails on variant 1: its
completion update (index.ts lines 317-332) replaces the whole metadata object
with one that has no `providerPayload` member, so after the ordinary
successful run the snapshot is gone. -/
theorem claim_C10_counterexample :
    (((⟨⟨.pending, 0, none, none, none⟩,
        ⟨.pending, none,
          .creationV1 "5s" "16:9" 3 "job-1"
            { prompt := "a cat surfing", duration := "5s", aspectRatio := "16:9", seed := 3
              timestamp := "t0", jobId := "job-1", cache := false }
            "a cat surfing" "t0"⟩⟩ : PipeState).asset.metadata).payloadV1).isSome = true ∧
    ((applyAll
        ⟨⟨.pending, 0, none, none, none⟩,
          ⟨.pending, none,
            .creationV1 "5s" "16:9" 3 "job-1"
              { prompt := "a cat surfing", duration := "5s", aspectRatio := "16:9", seed := 3
                timestamp := "t0", jobId := "job-1", cache := false }
              "a cat surfing" "t0"⟩⟩
        (traceV1
          { prompt := "a cat surfing", duration := "5s", aspectRatio := "16:9"
            seed := 3, providerJobId := "job-1" } none)).asset.metadata).payloadV1 = none := by
  decide

/-- C10 (amended): in the real-provider variant the
`provider_request_payload` snapshot is preserved by the whole background run —
the one post-dispatch metadata rewrite stores the identical payload and every
other write leaves the metadata column untouched — so it is still present,
unchanged, after terminal states; in the simulated variants the completion
update replaces the asset metadata and drops the snapshot (see the
counterexample). -/
theorem claim_C10_amended :
    ∀ (env : Env3) (s : PipeState),
      (s.asset.metadata).payloadV3 = some env.payload →
      ((applyAll s (traceV3 env)).asset.metadata).payloadV3 = some env.payload :=
  fun env s h => traceV3_preservePayload env s h

/-- C10 (witness): the amended theorem applied to a concrete creation-time
state and a dispatch-fails run. -/
theorem claim_C10_witness :
    ((applyAll
        ⟨⟨.pending, 0, none, none, none⟩,
          ⟨.pending, none,
            .creationV3 "pj" "p" "p"
              { prompt := "p", seed := 0, aspect_ratio := "16:9", duration := "5s"
                cache := false, nonce := "pj", created_at := "t" } 0 "5s" "16:9" "t"⟩⟩
        (traceV3
          { payload := { prompt := "p", seed := 0, aspect_ratio := "16:9", duration := "5s"
                         cache := false, nonce := "pj", created_at := "t" }
            providerJobId := "pj", dispatch := Except.error "boom"
            poll := fun _ => Except.ok PStatus.other, extra := fun _ => 0
            exnAt := none })).asset.metadata).payloadV3 =
      some { prompt := "p", seed := 0, aspect_ratio := "16:9", duration := "5s"
             cache := false, nonce := "pj", created_at := "t" } :=
  claim_C10_amended _ _ (by rfl)

/-- C3 (counterexample): the claim fails on variant 1 (index.ts lines
187-193), one of its cited implementations: when the job insert fails after a
successful asset insert, that handler returns 500 WITHOUT deleting the asset,
leaving an orphan pending media-asset row with no job row. -/
theorem claim_C3_counterexample :
    (createV1
        { seed := 3, timestampMs := 0, isoTimestamp := "t", nonce := "abcd1234-efgh".toList
          assetInsertFails := false, jobInsertFails := true }
        { prompt := .str "a cat surfing", duration := "5s", aspectRatio := "16:9", appId := none }
        { assets := [], jobs := [], nextId := 0 }).1.status = 500 ∧
    noOrphanPending
      (createV1
        { seed := 3, timestampMs := 0, isoTimestamp := "t", nonce := "abcd1234-efgh".toList
          assetInsertFails := false, jobInsertFails := true }
        { prompt := .str "a cat surfing", duration := "5s", aspectRatio := "16:9", appId := none }
        { assets := [], jobs := [], nextId := 0 }).2 = false := by
  decide

/-- C3 (amended): when the asset insert succeeds and the job insert fails,
the `part_002` handler and variant 3 delete the just-created media asset
before returning 500, restoring the store (no orphan pending asset); variant 1
(and variant 2) leave the orphan in place (see the counterexample). -/
theorem claim_C3_amended :
    ∀ (env : CreateEnv) (req : CreateReq) (db : DbState),
      promptInvalidV1 req.prompt = false →
      env.assetInsertFails = false → env.jobInsertFails = true →
      db.assets.all (fun a => a.id < db.nextId) = true →
      (createP2 env req db).1.status = 500 ∧
      (createP2 env req db).2.assets = db.assets ∧
      (createP2 env req db).2.jobs = db.jobs ∧
      (createV3 env req db).1.status = 500 ∧
      (createV3 env req db).2.assets = db.assets ∧
      (createV3 env req db).2.jobs = db.jobs := by
  intro env req db h ha hj hwf
  rcases hp : req.prompt with _ | _ | s
  · rw [hp] at h; simp [promptInvalidV1] at h
  · rw [hp] at h; simp [promptInvalidV1] at h
  · rw [hp] at h
    have hz : ((jsTrim s).length == 0) = false := by simpa [promptInvalidV1] using h
    have hfil : ∀ (m : AssetMeta) (pr : String),
        (db.assets ++ [{ id := db.nextId, status := .pending, prompt := pr
                         metadata := m : AssetRow }]).filter
          (fun a => a.id ≠ db.nextId) = db.assets := by
      intro m pr
      rw [List.filter_append, filter_ne_id db.assets db.nextId hwf]
      simp
    simp [createP2, createV3, hp, hz, ha, hj, errResp, hfil]
    intro a hax
    have hlt := List.all_eq_true.mp hwf a hax
    simp only [decide_eq_true_eq] at hlt
    omega

/-- C3 (witness): the amended theorem at a concrete request with a failing
job insert. -/
theorem claim_C3_witness :
    (createP2
        { seed := 3, timestampMs := 0, isoTimestamp := "t", nonce := "abcd1234-efgh".toList
          assetInsertFails := false, jobInsertFails := true }
        { prompt := .str "a cat surfing", duration := "5s", aspectRatio := "16:9", appId := none }
        { assets := [], jobs := [], nextId := 0 }).1.status = 500 ∧
    (createP2
        { seed := 3, timestampMs := 0, isoTimestamp := "t", nonce := "abcd1234-efgh".toList
          assetInsertFails := false, jobInsertFails := true }
        { prompt := .str "a cat surfing", duration := "5s", aspectRatio := "16:9", appId := none }
        { assets := [], jobs := [], nextId := 0 }).2.assets = [] :=
  ⟨(claim_C3_amended _ _ _ (by decide) rfl rfl (by decide)).1,
   (claim_C3_amended _ _ _ (by decide) rfl rfl (by decide)).2.1⟩

/-- C4 (counterexample): the claim fails on variant 3 (index.ts lines
804-811), one of its cited implementations: its successful create response is
HTTP 200 with status `"queued"` — neither `"pending"` nor `"processing"` — and
carries no `seed` member at all (and no variant uses the key `assetId`; the
asset id travels as `mediaAssetId`). -/
theorem claim_C4_counterexample :
    ((createV3
        { seed := 3, timestampMs := 0, isoTimestamp := "t", nonce := "abcd1234-efgh".toList
          assetInsertFails := false, jobInsertFails := false }
        { prompt := .str "a cat surfing", duration := "5s", aspectRatio := "16:9", appId := none }
        { assets := [], jobs := [], nextId := 0 }).1.status = 200) ∧
    lookupKey (createV3
        { seed := 3, timestampMs := 0, isoTimestamp := "t", nonce := "abcd1234-efgh".toList
          assetInsertFails := false, jobInsertFails := false }
        { prompt := .str "a cat surfing", duration := "5s", aspectRatio := "16:9", appId := none }
        { assets := [], jobs := [], nextId := 0 }).1.body "seed" = none ∧
    lookupKey (createV3
        { seed := 3, timestampMs := 0, isoTimestamp := "t", nonce := "abcd1234-efgh".toList
          assetInsertFails := false, jobInsertFails := false }
        { prompt := .str "a cat surfing", duration := "5s", aspectRatio := "16:9", appId := none }
        { assets := [], jobs := [], nextId := 0 }).1.body "status" = some (.s "queued") ∧
    lookupKey (createV3
        { seed := 3, timestampMs := 0, isoTimestamp := "t", nonce := "abcd1234-efgh".toList
          assetInsertFails := false, jobInsertFails := false }
        { prompt := .str "a cat surfing", duration := "5s", aspectRatio := "16:9", appId := none }
        { assets := [], jobs := [], nextId := 0 }).1.body "assetId" = none := by
  decide

/-- C4 (amended): every successful create response of variant 1 (and
`part_002`, identical) is HTTP 200 with `success: true`, the job id, a
provider job id, the asset id under the key `mediaAssetId` (not `assetId`),
status exactly `"pending"`, and `seed` equal to the job's generated seed;
variant 3's successful response instead reports status `"queued"`, exposes
`mediaAssetId`, and omits `seed`. -/
theorem claim_C4_amended :
    ∀ (env : CreateEnv) (req : CreateReq) (db : DbState),
      promptInvalidV1 req.prompt = false →
      env.assetInsertFails = false → env.jobInsertFails = false →
      ((createV1 env req db).1.status = 200 ∧
       lookupKey (createV1 env req db).1.body "success" = some (.b true) ∧
       lookupKey (createV1 env req db).1.body "jobId" = some (.n (db.nextId + 1)) ∧
       (lookupKey (createV1 env req db).1.body "providerJobId").isSome = true ∧
       lookupKey (createV1 env req db).1.body "mediaAssetId" = some (.n db.nextId) ∧
       lookupKey (createV1 env req db).1.body "status" = some (.s "pending") ∧
       lookupKey (createV1 env req db).1.body "seed" = some (.n env.seed) ∧
       lookupKey (createV1 env req db).1.body "assetId" = none) ∧
      ((createV3 env req db).1.status = 200 ∧
       lookupKey (createV3 env req db).1.body "success" = some (.b true) ∧
       lookupKey (createV3 env req db).1.body "status" = some (.s "queued") ∧
       lookupKey (createV3 env req db).1.body "seed" = none ∧
       lookupKey (createV3 env req db).1.body "mediaAssetId" = some (.n db.nextId)) := by
  intro env req db h ha hj
  rcases hp : req.prompt with _ | _ | s
  · rw [hp] at h; simp [promptInvalidV1] at h
  · rw [hp] at h; simp [promptInvalidV1] at h
  · rw [hp] at h
    have hz : ((jsTrim s).length == 0) = false := by simpa [promptInvalidV1] using h
    simp [createV1, createV3, hp, hz, ha, hj, lookupKey]

/-- C4 (witness): the amended theorem at a concrete successful request. -/
theorem claim_C4_witness :
    (createV1
        { seed := 3, timestampMs := 0, isoTimestamp := "t", nonce := "abcd1234-efgh".toList
          assetInsertFails := false, jobInsertFails := false }
        { prompt := .str "a cat surfing", duration := "5s", aspectRatio := "16:9", appId := none }
        { assets := [], jobs := [], nextId := 0 }).1.status = 200 ∧
    lookupKey (createV1
        { seed := 3, timestampMs := 0, isoTimestamp := "t", nonce := "abcd1234-efgh".toList
          assetInsertFails := false, jobInsertFails := false }
        { prompt := .str "a cat surfing", duration := "5s", aspectRatio := "16:9", appId := none }
        { assets := [], jobs := [], nextId := 0 }).1.body "seed" = some (.n 3) :=
  ⟨((claim_C4_amended _ _ _ (by decide) rfl rfl).1).1,
   ((claim_C4_amended _ _ _ (by decide) rfl rfl).1).2.2.2.2.2.2.1⟩

/-- C6: the polling loop terminates — its bounded-fuel embedding never
exhausts the fuel and performs at most 200 polls (the 10-minute ceiling over
the 3-second cadence) — and when the provider never reports a terminal state
(and no store write throws), the run ends by marking the job failed with
exactly the message `"Provider timed out"` and marking the asset failed. -/
theorem claim_C6 :
    (∀ env : Env3, (bodyV3 env).fuelOut = false) ∧
    (∀ env : Env3, (bodyV3 env).polls ≤ 200) ∧
    (∀ (env : Env3) (pid : String), env.dispatch = Except.ok pid → env.exnAt = none →
      (∀ j, env.poll j = Except.ok PStatus.other) →
      (∃ pre, traceV3 env = pre ++ [jobFailedW "Provider timed out", assetFailedW]) ∧
      ∀ s : PipeState,
        (applyAll s (traceV3 env)).job.status = .failed ∧
        (applyAll s (traceV3 env)).job.error_message = some "Provider timed out" ∧
        (applyAll s (traceV3 env)).asset.status = .failed) := by
  refine ⟨bodyV3_fuelOut, bodyV3_polls, ?_⟩
  intro env pid hdisp hexn hpoll
  have hb := bodyV3_ok env pid hdisp hexn
  obtain ⟨⟨pre, hpre⟩, hpe⟩ := loop_timeout env hpoll hexn 201 0 0 3 (by simp [timeoutMs])
  have htr : traceV3 env =
      (jobProcessingW3 :: assetProcessingW :: assetMetaW env pid :: pre) ++
        [jobFailedW "Provider timed out", assetFailedW] := by
    simp [traceV3, hb, hpe, exnTail, hpre]
  refine ⟨⟨_, htr⟩, fun s => ?_⟩
  rw [htr]
  exact applyAll_fail_pair s _ _

/-- C6 (witness): the theorem applied to a provider that always answers a
non-terminal status. -/
theorem claim_C6_witness :
    ∃ pre, traceV3
        { payload := { prompt := "p", seed := 0, aspect_ratio := "16:9", duration := "5s"
                       cache := false, nonce := "pj", created_at := "t" }
          providerJobId := "pj", dispatch := Except.ok "pred-1"
          poll := fun _ => Except.ok PStatus.other, extra := fun _ => 0
          exnAt := none } =
      pre ++ [jobFailedW "Provider timed out", assetFailedW] :=
  (claim_C6.2.2 _ "pred-1" rfl rfl (fun _ => rfl)).1

/-- C7: when the provider's poll reports `succeeded` with output URL `X` (at
poll `k` after `k` non-terminal polls, inside the ceiling), variant 3 sets the
job to completed with progress 100 and a stamped `completed_at`, and sets the
owning asset to completed with `file_url = X` (metadata untouched); and in the
simulated variant 1 the successful run completes the job the same way with
`X = sampleVideos[seed % 5]`. -/
theorem claim_C7 :
    (∀ (env : Env3) (pid url : String) (k : Nat) (s : PipeState),
      env.dispatch = Except.ok pid → env.exnAt = none → (∀ j, env.extra j = 0) →
      (∀ j, j < k → env.poll j = Except.ok PStatus.other) →
      env.poll k = Except.ok (PStatus.succeeded url) → k ≤ 199 →
      (applyAll s (traceV3 env)).job.status = .completed ∧
      (applyAll s (traceV3 env)).job.progress = 100 ∧
      (applyAll s (traceV3 env)).job.completed_at = some 0 ∧
      (applyAll s (traceV3 env)).asset.status = .completed ∧
      (applyAll s (traceV3 env)).asset.file_url = some url ∧
      (applyAll s (traceV3 env)).asset.metadata =
        .dispatchV3 env.payload pid env.providerJobId) ∧
    (∀ (a : ArgsV1) (s : PipeState),
      (applyAll s (traceV1 a none)).job.status = .completed ∧
      (applyAll s (traceV1 a none)).job.progress = 100 ∧
      (applyAll s (traceV1 a none)).job.completed_at = some 0 ∧
      (applyAll s (traceV1 a none)).asset.status = .completed ∧
      (applyAll s (traceV1 a none)).asset.file_url = some (sampleVideoUrl a.seed)) := by
  constructor
  · intro env pid url k s hdisp hexn hextra hrun hsucc hk
    have hb := bodyV3_ok env pid hdisp hexn
    have hrun' : ∀ j, j < k → env.poll (0 + j) = Except.ok PStatus.other := by
      intro j hj; simpa using hrun j hj
    have hsucc' : env.poll (0 + k) = Except.ok (PStatus.succeeded url) := by simpa using hsucc
    have he : 0 + 3000 * k < timeoutMs := by simp only [timeoutMs]; omega
    have hl := loop_succeeded env url hexn hextra k 201 0 0 3
      (applyWrite (applyWrite (applyWrite s jobProcessingW3) assetProcessingW)
        (assetMetaW env pid)) hrun' hsucc' he (by omega)
    have htr : traceV3 env =
        jobProcessingW3 :: assetProcessingW :: assetMetaW env pid ::
          (loopV3 env 201 0 0 3).writes := by
      simp [traceV3, hb, hl.1, exnTail]
    rw [htr, applyAll_cons, applyAll_cons, applyAll_cons]
    refine ⟨hl.2.1, hl.2.2.1, hl.2.2.2.1, hl.2.2.2.2.1, hl.2.2.2.2.2.1, ?_⟩
    rw [hl.2.2.2.2.2.2]
    rfl
  · intro a s
    exact ⟨rfl, rfl, rfl, rfl, rfl⟩

/-- C7 (witness): the theorem applied to a provider succeeding on the first
poll with output URL `"X"`. -/
theorem claim_C7_witness :
    (applyAll
        ⟨⟨.pending, 0, none, none, none⟩,
          ⟨.pending, none,
            .creationV3 "pj" "p" "p"
              { prompt := "p", seed := 0, aspect_ratio := "16:9", duration := "5s"
                cache := false, nonce := "pj", created_at := "t" } 0 "5s" "16:9" "t"⟩⟩
        (traceV3
          { payload := { prompt := "p", seed := 0, aspect_ratio := "16:9", duration := "5s"
                         cache := false, nonce := "pj", created_at := "t" }
            providerJobId := "pj", dispatch := Except.ok "pred-1"
            poll := fun _ => Except.ok (PStatus.succeeded "X"), extra := fun _ => 0
            exnAt := none })).job.status = .completed ∧
    (applyAll
        ⟨⟨.pending, 0, none, none, none⟩,
          ⟨.pending, none,
            .creationV3 "pj" "p" "p"
              { prompt := "p", seed := 0, aspect_ratio := "16:9", duration := "5s"
                cache := false, nonce := "pj", created_at := "t" } 0 "5s" "16:9" "t"⟩⟩
        (traceV3
          { payload := { prompt := "p", seed := 0, aspect_ratio := "16:9", duration := "5s"
                         cache := false, nonce := "pj", created_at := "t" }
            providerJobId := "pj", dispatch := Except.ok "pred-1"
            poll := fun _ => Except.ok (PStatus.succeeded "X"), extra := fun _ => 0
            exnAt := none })).asset.file_url = some "X" :=
  ⟨(claim_C7.1 _ "pred-1" "X" 0 _ rfl rfl (fun _ => rfl)
      (fun j hj => absurd hj (Nat.not_lt_zero j)) rfl (by omega)).1,
   (claim_C7.1 _ "pred-1" "X" 0 _ rfl rfl (fun _ => rfl)
      (fun j hj => absurd hj (Nat.not_lt_zero j)) rfl (by omega)).2.2.2.2.1⟩

end VishnuVideo
